import Mathlib

/-!
Verification of the transcript-accumulation state machine and the speech-synthesis
settings logic of the web-speech-api-playground repository.

The embedding follows `src/utils/utils.ts`:
* `useSpeechRecognition` keeps four pieces of state (`finalTranscript`,
  `interimTranscript`, `isListening`, `error`) plus a ref `latestInterimRef`
  mirroring the interim transcript, and a ref to the platform recognition
  object (modelled by the flag `recognitionAvailable`).
* The handlers `onresult`, `onstart`, `onend`, `onerror` and the functions
  `startListening` / `stopListening` are modelled as pure state transformers.
* `useSpeechSynthesis` keeps a settings record merged by spread, and `speak`
  builds an utterance with clamped rate / pitch / volume.
-/

namespace WebSpeech

/-- One alternative of a recognition result: its transcript and an optional
confidence value (`SpeechRecognitionAlternative`). -/
structure Alternative where
  transcript : String
  confidence : Option ℚ
deriving DecidableEq

/-- One recognition result: the `isFinal` flag and the ordered list of
alternatives. -/
structure SpeechResult where
  isFinal : Bool
  alternatives : List Alternative
deriving DecidableEq

/-- `result[0].transcript` — the transcript of the alternative at index 0.
The platform guarantees at least one alternative per result; an empty list
defaults to the empty transcript. -/
def SpeechResult.alt0 (r : SpeechResult) : String :=
  (r.alternatives.headD { transcript := "", confidence := none }).transcript

/-- A `SpeechRecognitionEvent`: the offset `resultIndex` into the growing
result list `results`. -/
structure RecognitionEvent where
  resultIndex : Nat
  results : List SpeechResult
deriving DecidableEq

/-- The structured error descriptor stored in the hook state. -/
structure RecError where
  error : String
  message : String
deriving DecidableEq

/-- The state of the `useSpeechRecognition` hook: the two transcript buffers,
the ref mirroring the interim buffer for the `onend` handler, the listening
flag, the stored error, and whether the platform recognition object exists
(`recognitionRef.current` is non-null). -/
structure RecState where
  finalTranscript : String
  interimTranscript : String
  latestInterim : String
  isListening : Bool
  error : Option RecError
  recognitionAvailable : Bool
deriving DecidableEq

/-- JS `String.prototype.trim` on the character list: drop whitespace from the
front, then from the back. -/
def trimChars (l : List Char) : List Char :=
  ((l.dropWhile Char.isWhitespace).reverse.dropWhile Char.isWhitespace).reverse

/-- JS `String.prototype.trim`: strip leading and trailing whitespace. -/
def strTrim (s : String) : String :=
  { data := trimChars s.data }

/-- The loop of the `onresult` handler: fold over the results from the offset,
accumulating `currentSessionFinal` (top transcript plus a space for each final
result) and `currentSessionInterim` (top transcript for each non-final one). -/
def processBatch (rs : List SpeechResult) : String × String :=
  rs.foldl
    (fun acc r =>
      if r.isFinal then (acc.1 ++ r.alt0 ++ " ", acc.2) else (acc.1, acc.2 ++ r.alt0))
    ("", "")

/-- The `onresult` handler: process the batch from `resultIndex` on, append the
session final part to the final buffer (trimmed), replace the interim buffer
(trimmed) and its ref mirror, and clear the error. -/
def onresult (s : RecState) (e : RecognitionEvent) : RecState :=
  let p := processBatch (e.results.drop e.resultIndex)
  { s with
    finalTranscript := strTrim (s.finalTranscript ++ p.1)
    interimTranscript := strTrim p.2
    latestInterim := strTrim p.2
    error := none }

/-- The `onstart` handler: mark listening, clear the error and all buffers. -/
def onstart (s : RecState) : RecState :=
  { s with
    isListening := true
    error := none
    finalTranscript := ""
    interimTranscript := ""
    latestInterim := "" }

/-- The `onend` handler: stop listening; if the interim ref is non-empty,
fold it into the final buffer; clear the interim buffer and its ref. -/
def onend (s : RecState) : RecState :=
  { s with
    isListening := false
    finalTranscript :=
      if s.latestInterim = "" then s.finalTranscript
      else strTrim (s.finalTranscript ++ " " ++ s.latestInterim)
    interimTranscript := ""
    latestInterim := "" }

/-- The platform error event (`SpeechRecognitionErrorEvent`): an error code and
an optional message. -/
structure RecErrorEvent where
  error : String
  message : Option String
deriving DecidableEq

/-- `event.message || default`: an absent or empty message falls back to the
default text. -/
def errorMessageOr (m : Option String) : String :=
  match m with
  | some t => if t = "" then "An unknown speech recognition error occurred." else t
  | none => "An unknown speech recognition error occurred."

/-- The `onerror` handler: stop listening, record a structured error, and clear
both transcript buffers and the interim ref. -/
def onerror (s : RecState) (e : RecErrorEvent) : RecState :=
  { s with
    isListening := false
    error := some { error := e.error, message := errorMessageOr e.message }
    finalTranscript := ""
    interimTranscript := ""
    latestInterim := "" }

/-- Error stored when `startListening` is called while already listening. -/
def alreadyListeningError : RecError :=
  { error := "AlreadyListening", message := "Recognition is already active." }

/-- Error stored when `startListening` is called without a recognition object. -/
def notInitializedError : RecError :=
  { error := "NotInitialized"
    message := "Speech Recognition not initialized. Browser might not support it." }

/-- Error stored by the setup effect when the Web Speech API is unsupported. -/
def browserNotSupportedError : RecError :=
  { error := "BrowserNotSupported"
    message := "Web Speech API is not supported by your browser." }

/-- `startListening`: with a recognition object and not listening, clear the
buffers and the error and call the platform `start` (the happy path of the
`try`); while listening, store the already-active error; otherwise store the
not-initialized error. The listening flag itself is only set by `onstart`. -/
def startListening (s : RecState) : RecState :=
  if s.recognitionAvailable && !s.isListening then
    { s with
      finalTranscript := ""
      interimTranscript := ""
      latestInterim := ""
      error := none }
  else if s.isListening then
    { s with error := some alreadyListeningError }
  else
    { s with error := some notInitializedError }

/-- `stopListening`: returns the state (unchanged — the handler mutates no hook
state itself) together with whether the platform `stop` method was invoked. -/
def stopListening (s : RecState) : RecState × Bool :=
  if s.recognitionAvailable && s.isListening then (s, true) else (s, false)

/-- The transcript value returned by the hook:
`(finalTranscript + ' ' + interimTranscript).trim()`. -/
def transcript (s : RecState) : String :=
  strTrim (s.finalTranscript ++ " " ++ s.interimTranscript)

/-- The hook state right after the setup effect ran: empty buffers, not
listening; if the platform lacks the capability, the recognition object is
never created and the browser-not-supported error is stored. -/
def initState (available : Bool) : RecState :=
  { finalTranscript := ""
    interimTranscript := ""
    latestInterim := ""
    isListening := false
    error := if available then none else some browserNotSupportedError
    recognitionAvailable := available }

/-- A user request to the hook: a start or a stop click. -/
inductive UserReq
  | start
  | stop
deriving DecidableEq

/-- Apply one user request to the hook state. -/
def applyReq (s : RecState) (r : UserReq) : RecState :=
  match r with
  | .start => startListening s
  | .stop => (stopListening s).1

/-- Concatenation of `alt0 + " "` over the final results of a batch, in order:
the `currentSessionFinal` string the loop builds. -/
def finalConcat : List SpeechResult → String
  | [] => ""
  | r :: rs => (if r.isFinal then r.alt0 ++ " " else "") ++ finalConcat rs

/-- Concatenation of `alt0` over the non-final results of a batch, in order:
the `currentSessionInterim` string the loop builds. -/
def interimConcat : List SpeechResult → String
  | [] => ""
  | r :: rs => (if r.isFinal then "" else r.alt0) ++ interimConcat rs

theorem processBatch_go (rs : List SpeechResult) (a b : String) :
    rs.foldl
      (fun acc r =>
        if r.isFinal then (acc.1 ++ r.alt0 ++ " ", acc.2) else (acc.1, acc.2 ++ r.alt0))
      (a, b)
    = (a ++ finalConcat rs, b ++ interimConcat rs) := by
  induction rs generalizing a b with
  | nil => simp [finalConcat, interimConcat]
  | cons r rs ih =>
    rw [List.foldl_cons]
    by_cases h : r.isFinal = true
    · rw [if_pos h, ih]
      simp [finalConcat, interimConcat, h, String.append_assoc]
    · rw [if_neg h, ih]
      simp [finalConcat, interimConcat, h, String.append_assoc]

theorem processBatch_eq (rs : List SpeechResult) :
    processBatch rs = (finalConcat rs, interimConcat rs) := by
  have h := processBatch_go rs "" ""
  simpa [processBatch] using h

/-- Speech synthesis settings (`SpeechSynthesisSettings`). Numeric fields are
modelled as rationals: `speak` only compares and selects them, so the number
representation is immaterial to the clamping behaviour. -/
structure SynthSettings where
  lang : String
  rate : ℚ
  pitch : ℚ
  volume : ℚ
  voiceName : Option String
deriving DecidableEq

/-- A partial settings object (`Partial of SpeechSynthesisSettings`): each
field is present or absent. -/
structure SynthPatch where
  lang : Option String := none
  rate : Option ℚ := none
  pitch : Option ℚ := none
  volume : Option ℚ := none
  voiceName : Option (Option String) := none
deriving DecidableEq

/-- The spread merge `{ ...prev, ...newSettings }`: a field present in the
patch overrides the previous value. -/
def mergeSettings (prev : SynthSettings) (p : SynthPatch) : SynthSettings :=
  { lang := p.lang.getD prev.lang
    rate := p.rate.getD prev.rate
    pitch := p.pitch.getD prev.pitch
    volume := p.volume.getD prev.volume
    voiceName := p.voiceName.getD prev.voiceName }

/-- `updateSettings` of `useSpeechSynthesis`: replace the settings state with
the spread merge of the previous settings and the partial update. -/
def updateSettings (s : SynthSettings) (p : SynthPatch) : SynthSettings :=
  mergeSettings s p

/-- The default synthesis settings of the hook. -/
def defaultSynthSettings : SynthSettings :=
  { lang := "en-US", rate := 4/5, pitch := 1, volume := 1, voiceName := none }

/-- A platform voice (`SpeechSynthesisVoice`): name, language and default flag. -/
structure Voice where
  name : String
  lang : String
  isDefault : Bool
deriving DecidableEq

/-- The fields of the `SpeechSynthesisUtterance` that `speak` constructs. -/
structure Utterance where
  text : String
  lang : String
  rate : ℚ
  pitch : ℚ
  volume : ℚ
  voice : Option Voice
deriving DecidableEq

/-- Voice selection of `speak`: with a requested voice name, find the voice
matching name and language (an unmatched name leaves the voice unset); without
one, find the default voice of the language. -/
def selectVoice (availableVoices : List Voice) (fs : SynthSettings) : Option Voice :=
  match fs.voiceName with
  | some n => availableVoices.find? (fun v => v.name = n && v.lang = fs.lang)
  | none => availableVoices.find? (fun v => v.lang = fs.lang && v.isDefault)

/-- `speak text customSettings`: with synthesis unsupported or empty text, set
an error and return no utterance; otherwise merge the settings with the custom
overrides and build the utterance with rate clamped by
`max 0.1 (min 10 rate)`, pitch by `max 0 (min 2 pitch)` and volume by
`max 0 (min 1 volume)`. -/
def speak (supported : Bool) (availableVoices : List Voice) (settings : SynthSettings)
    (text : String) (custom : SynthPatch) : Option Utterance :=
  if !supported || text = "" then
    none
  else
    let fs := mergeSettings settings custom
    some
      { text := text
        lang := fs.lang
        rate := max (1/10) (min 10 fs.rate)
        pitch := max 0 (min 2 fs.pitch)
        volume := max 0 (min 1 fs.volume)
        voice := selectVoice availableVoices fs }

/-! ## Concrete inputs used by scenarios, counterexamples and witnesses -/

/-- A batch with one final result whose top transcript is `hello`. -/
def helloFinalEvent : RecognitionEvent :=
  { resultIndex := 0
    results := [{ isFinal := true
                  alternatives := [{ transcript := "hello", confidence := none }] }] }

/-- A batch with one interim result whose top transcript is `how are you`. -/
def howAreYouInterimEvent : RecognitionEvent :=
  { resultIndex := 0
    results := [{ isFinal := false
                  alternatives := [{ transcript := "how are you", confidence := none }] }] }

/-- A batch with one interim result whose top transcript carries a trailing
space. -/
def trailingSpaceInterimEvent : RecognitionEvent :=
  { resultIndex := 0
    results := [{ isFinal := false
                  alternatives := [{ transcript := "hi ", confidence := none }] }] }

/-- A mid-session state: listening, no final results yet, interim buffer and
its ref both holding `testing`. -/
def abruptEndState : RecState :=
  { finalTranscript := ""
    interimTranscript := "testing"
    latestInterim := "testing"
    isListening := true
    error := none
    recognitionAvailable := true }

/-! ## Claims -/

/-- C1 counterexample: the claim as stated says the interim buffer afterwards
equals exactly the concatenated non-final alternative-0 transcripts of the
batch; the handler trims the concatenation, so a transcript with a trailing
space refutes the exact equality: the batch `[interim "hi "]` leaves interim
buffer `hi`, not `hi `. -/
theorem C1_counterexample :
    (onresult (initState true) trailingSpaceInterimEvent).interimTranscript ≠ "hi " := by
  decide

/-- C1 (amended): for every batch processed by `onresult` from the given
offset onward, the final buffer becomes the trim of the old final buffer
followed by each final result's alternative-0 transcript plus a separator
space, and the interim buffer becomes the trim of the concatenated non-final
alternative-0 transcripts of that batch alone — independent of the previous
state, hence replaced and never accumulated across batches. -/
theorem C1_onresult_buffers (s : RecState) (e : RecognitionEvent) :
    (onresult s e).finalTranscript
        = strTrim (s.finalTranscript ++ finalConcat (e.results.drop e.resultIndex))
      ∧ (onresult s e).interimTranscript
        = strTrim (interimConcat (e.results.drop e.resultIndex))
      ∧ ∀ s2 : RecState,
          (onresult s2 e).interimTranscript = (onresult s e).interimTranscript := by
  refine ⟨?_, ?_, fun s2 => ?_⟩ <;> simp [onresult, processBatch_eq]

/-- C2: the hook always emits
`transcript = trim(finalTranscript + " " + interimTranscript)`; and after a
batch with a final `hello` followed by a batch with an interim `how are you`
the emitted transcript is exactly `hello how are you`. -/
theorem C2_transcript_emission :
    (∀ s : RecState,
        transcript s = strTrim (s.finalTranscript ++ " " ++ s.interimTranscript))
    ∧ transcript
        (onresult (onresult (onstart (initState true)) helloFinalEvent)
          howAreYouInterimEvent)
      = "hello how are you" :=
  ⟨fun _ => rfl, by decide⟩

/-- C3: on session end with a non-empty interim buffer (mirrored by its ref,
as every writer keeps them in sync), `onend` folds the interim content into
the final buffer exactly once — the new final buffer is the trim of the old
final buffer, a space, and the interim content — and clears both the interim
buffer and its ref. -/
theorem C3_onend_flushes_interim (s : RecState)
    (hsync : s.latestInterim = s.interimTranscript)
    (hne : s.interimTranscript ≠ "") :
    (onend s).finalTranscript
        = strTrim (s.finalTranscript ++ " " ++ s.interimTranscript)
      ∧ (onend s).interimTranscript = "" ∧ (onend s).latestInterim = "" := by
  have hne2 : ¬ s.latestInterim = "" := by rw [hsync]; exact hne
  refine ⟨?_, rfl, rfl⟩
  show (if s.latestInterim = "" then s.finalTranscript
      else strTrim (s.finalTranscript ++ " " ++ s.latestInterim))
    = strTrim (s.finalTranscript ++ " " ++ s.interimTranscript)
  rw [if_neg hne2, hsync]

/-- C3 witness: a session with no final results whose interim buffer holds
`testing` when it ends abruptly yields final transcript `testing`. -/
theorem C3_witness :
    (abruptEndState.latestInterim = abruptEndState.interimTranscript
      ∧ abruptEndState.interimTranscript ≠ "")
    ∧ ((onend abruptEndState).finalTranscript
          = strTrim (abruptEndState.finalTranscript ++ " "
              ++ abruptEndState.interimTranscript)
        ∧ (onend abruptEndState).interimTranscript = ""
        ∧ (onend abruptEndState).latestInterim = "")
    ∧ (onend abruptEndState).finalTranscript = "testing" :=
  ⟨⟨by decide, by decide⟩,
    C3_onend_flushes_interim abruptEndState (by decide) (by decide),
    by decide⟩

/-- A mid-session state used to instantiate the listening-state claims. -/
def midSessionState : RecState :=
  { finalTranscript := "hello"
    interimTranscript := "there"
    latestInterim := "there"
    isListening := true
    error := none
    recognitionAvailable := true }

/-- C4: calling `startListening` while already listening records the
already-active error (code `AlreadyListening` — the spec's AlreadyActive kind)
and leaves the final buffer, the interim buffer, its ref and the listening
flag unchanged: an explicit error condition, not a silent no-op. -/
theorem C4_start_while_listening (s : RecState) (h : s.isListening = true) :
    (startListening s).finalTranscript = s.finalTranscript
      ∧ (startListening s).interimTranscript = s.interimTranscript
      ∧ (startListening s).latestInterim = s.latestInterim
      ∧ (startListening s).error = some alreadyListeningError
      ∧ (startListening s).isListening = s.isListening := by
  simp [startListening, h]

/-- C4 witness: starting from a concrete listening state. -/
theorem C4_witness :
    midSessionState.isListening = true
    ∧ ((startListening midSessionState).finalTranscript
          = midSessionState.finalTranscript
        ∧ (startListening midSessionState).interimTranscript
          = midSessionState.interimTranscript
        ∧ (startListening midSessionState).latestInterim
          = midSessionState.latestInterim
        ∧ (startListening midSessionState).error = some alreadyListeningError
        ∧ (startListening midSessionState).isListening
          = midSessionState.isListening) :=
  ⟨by decide, C4_start_while_listening midSessionState (by decide)⟩

/-- C5: a platform error event while listening clears both transcript buffers
and the interim ref, records the structured error descriptor built from the
event, and returns the machine to Idle (`isListening` becomes false). -/
theorem C5_onerror_resets (s : RecState) (e : RecErrorEvent)
    (_h : s.isListening = true) :
    (onerror s e).finalTranscript = ""
      ∧ (onerror s e).interimTranscript = ""
      ∧ (onerror s e).latestInterim = ""
      ∧ (onerror s e).error
        = some { error := e.error, message := errorMessageOr e.message }
      ∧ (onerror s e).isListening = false := by
  simp [onerror]

/-- C5 witness: a concrete `network` error event in a mid-session state. -/
theorem C5_witness :
    midSessionState.isListening = true
    ∧ ((onerror midSessionState { error := "network", message := none }).finalTranscript = ""
        ∧ (onerror midSessionState { error := "network", message := none }).interimTranscript = ""
        ∧ (onerror midSessionState { error := "network", message := none }).latestInterim = ""
        ∧ (onerror midSessionState { error := "network", message := none }).error
          = some { error := "network"
                   message := errorMessageOr (none : Option String) }
        ∧ (onerror midSessionState { error := "network", message := none }).isListening = false) :=
  ⟨by decide, C5_onerror_resets midSessionState { error := "network", message := none } (by decide)⟩

theorem interimConcat_eq_empty (rs : List SpeechResult)
    (h : ∀ r ∈ rs, r.isFinal = true) : interimConcat rs = "" := by
  induction rs with
  | nil => rfl
  | cons r rs ih =>
    rw [interimConcat]
    rw [if_pos (h r (List.mem_cons_self r rs)), String.empty_append]
    exact ih (fun x hx => h x (List.mem_cons_of_mem r hx))

theorem onresult_interim_all_final (s : RecState) (e : RecognitionEvent)
    (h : ∀ r ∈ e.results, r.isFinal = true) :
    (onresult s e).interimTranscript = "" := by
  have h2 : interimConcat (e.results.drop e.resultIndex) = "" :=
    interimConcat_eq_empty _ (fun r hr => h r (List.mem_of_mem_drop hr))
  simp [onresult, processBatch_eq, h2]
  rfl

/-- C6: in any sequence of batches in which every result is marked final, the
interim buffer is empty right after `onresult` processes each batch (any
point after a batch is: some preceding batches, then the batch just
processed). -/
theorem C6_all_final_interim_empty (s : RecState) (es : List RecognitionEvent)
    (e : RecognitionEvent)
    (hfin : ∀ b ∈ es ++ [e], ∀ r ∈ b.results, r.isFinal = true) :
    ((es ++ [e]).foldl onresult s).interimTranscript = "" := by
  rw [List.foldl_append]
  exact onresult_interim_all_final _ e (hfin e (by simp))

/-- C6 witness: a single all-final batch. -/
theorem C6_witness :
    (∀ b ∈ ([] ++ [helloFinalEvent]), ∀ r ∈ b.results, r.isFinal = true)
    ∧ (([] ++ [helloFinalEvent]).foldl onresult (initState true)).interimTranscript = "" :=
  ⟨by decide, C6_all_final_interim_empty (initState true) [] helloFinalEvent (by decide)⟩

/-- The invariant holding throughout when the capability is unavailable: no
recognition object, not listening, and an unavailability error stored. -/
def idleInv (s : RecState) : Prop :=
  s.recognitionAvailable = false ∧ s.isListening = false
  ∧ (s.error = some browserNotSupportedError ∨ s.error = some notInitializedError)

theorem applyReq_idleInv (s : RecState) (r : UserReq) (h : idleInv s) :
    idleInv (applyReq s r) := by
  obtain ⟨ha, hl, he⟩ := h
  cases r with
  | start => simp [applyReq, startListening, ha, hl, idleInv]
  | stop => simpa [applyReq, stopListening, ha, idleInv, hl] using he

theorem foldl_applyReq_idleInv (reqs : List UserReq) (s : RecState)
    (h : idleInv s) : idleInv (reqs.foldl applyReq s) := by
  induction reqs generalizing s with
  | nil => exact h
  | cons r rs ih => exact ih _ (applyReq_idleInv s r h)

/-- C7: with the speech capability unavailable, every sequence of start/stop
requests leaves the machine in Idle (`isListening` is false at every point,
since every prefix is itself such a sequence) and an unavailability error is
surfaced: the browser-not-supported descriptor from setup, or the
not-initialized descriptor (whose message states the browser might not
support the API) once a start was attempted. -/
theorem C7_unsupported_stays_idle (reqs : List UserReq) :
    (reqs.foldl applyReq (initState false)).isListening = false
    ∧ ((reqs.foldl applyReq (initState false)).error = some browserNotSupportedError
        ∨ (reqs.foldl applyReq (initState false)).error = some notInitializedError) := by
  have h := foldl_applyReq_idleInv reqs (initState false)
    ⟨rfl, rfl, Or.inl rfl⟩
  exact ⟨h.2.1, h.2.2⟩

/-- The partial settings update `{ rate: 0.5 }`. -/
def ratePatch : SynthPatch := { rate := some (1/2) }

/-- C8: the synthesis settings merge is idempotent: for every settings state,
applying `updateSettings { rate: 0.5 }` twice yields the same settings as
applying it once. -/
theorem C8_settings_merge_idempotent (s : SynthSettings) :
    updateSettings (updateSettings s ratePatch) ratePatch
      = updateSettings s ratePatch := rfl

/-- C9: whenever synthesis is supported and the text is non-empty, `speak`
constructs an utterance — for every settings and custom override, including
rate, pitch or volume outside their documented ranges — whose rate is the
requested rate clamped into the interval from 0.1 to 10, whose pitch is
clamped into 0 to 2, and whose volume is clamped into 0 to 1: the request is
neither rejected nor passed through raw. -/
theorem C9_speak_clamps (availableVoices : List Voice) (settings : SynthSettings)
    (text : String) (custom : SynthPatch) (htext : text ≠ "") :
    ∃ u : Utterance,
      speak true availableVoices settings text custom = some u
      ∧ u.rate = max (1/10) (min 10 (mergeSettings settings custom).rate)
      ∧ u.pitch = max 0 (min 2 (mergeSettings settings custom).pitch)
      ∧ u.volume = max 0 (min 1 (mergeSettings settings custom).volume)
      ∧ 1/10 ≤ u.rate ∧ u.rate ≤ 10
      ∧ 0 ≤ u.pitch ∧ u.pitch ≤ 2
      ∧ 0 ≤ u.volume ∧ u.volume ≤ 1 := by
  refine ⟨{ text := text
            lang := (mergeSettings settings custom).lang
            rate := max (1/10) (min 10 (mergeSettings settings custom).rate)
            pitch := max 0 (min 2 (mergeSettings settings custom).pitch)
            volume := max 0 (min 1 (mergeSettings settings custom).volume)
            voice := selectVoice availableVoices (mergeSettings settings custom) },
    ?_, rfl, rfl, rfl, le_max_left _ _, ?_, le_max_left _ _, ?_, le_max_left _ _, ?_⟩
  · simp [speak, htext]
  · exact max_le (by norm_num) (min_le_left _ _)
  · exact max_le (by norm_num) (min_le_left _ _)
  · exact max_le (by norm_num) (min_le_left _ _)

/-- C9 witness: speaking `hi` with an out-of-range custom rate of 50. -/
theorem C9_witness :
    ("hi" : String) ≠ ""
    ∧ ∃ u : Utterance,
        speak true [] defaultSynthSettings "hi" { rate := some 50 } = some u
        ∧ u.rate = max (1/10) (min 10 (mergeSettings defaultSynthSettings { rate := some 50 }).rate)
        ∧ u.pitch = max 0 (min 2 (mergeSettings defaultSynthSettings { rate := some 50 }).pitch)
        ∧ u.volume = max 0 (min 1 (mergeSettings defaultSynthSettings { rate := some 50 }).volume)
        ∧ 1/10 ≤ u.rate ∧ u.rate ≤ 10
        ∧ 0 ≤ u.pitch ∧ u.pitch ≤ 2
        ∧ 0 ≤ u.volume ∧ u.volume ≤ 1 :=
  ⟨by decide,
    C9_speak_clamps [] defaultSynthSettings "hi" { rate := some 50 } (by decide)⟩

/-- C10: calling `stopListening` while not listening is a no-op: the returned
state is the very same state — final buffer, interim buffer, its ref, the
listening flag and the stored error all unchanged, in particular no error is
set — and the platform stop method is not invoked. -/
theorem C10_stop_while_not_listening (s : RecState)
    (h : s.isListening = false) :
    (stopListening s).1 = s ∧ (stopListening s).2 = false := by
  simp [stopListening, h]

/-- C10 witness: a concrete idle state with text already accumulated. -/
theorem C10_witness :
    (onend midSessionState).isListening = false
    ∧ ((stopListening (onend midSessionState)).1 = onend midSessionState
        ∧ (stopListening (onend midSessionState)).2 = false) :=
  ⟨by decide, C10_stop_while_not_listening (onend midSessionState) (by decide)⟩

end WebSpeech
